import Mathlib

/-!
Shallow embedding of `django_bouncy/utils.py` (django-bouncy).

The module under verification contains four functions:
  * `grab_keyfile`   — cache-aware fetch of the SNS signing certificate;
  * `verify_notification` — SNS signature verification;
  * `approve_subscription` — confirmation of an SNS subscription request;
  * `clean_time`     — datetime parsing (not needed by any claim).

External effects and third-party libraries (`urlopen`, `pem.parse`,
`cryptography`'s `load_pem_public_key`, `base64`, `urlparse`) are
modelled as fields of an `Env` structure; Django's cache is threaded
explicitly as a function `String → Option (List Nat)`.  Python
exceptions are modelled with `Except PyErr`; stateful functions return
the resulting cache alongside the result so that "the cache was not
written" is expressible even on the exception path.

Two call sites are modelled as the broken calls they are rather than as
the operations they were presumably meant to perform:
  * `cert.verify(signature=..., data=..., algorithm=hashes.SHA256())`
    (lines 110–114) omits the mandatory `padding` parameter of
    `RSAPublicKey.verify`, and the module imports no padding, so the
    call raises `TypeError` before any cryptographic work (`certVerify`
    below);
  * `except urllib.HTTPError` (line 142) is evaluated on Python 3 —
    the only runtime on which line 102's `base64.decodebytes` exists —
    where the `urllib` package has no `HTTPError` attribute, so the
    except clause itself raises `AttributeError` and the error
    propagates instead of being caught.

The default subscription-domain regular expression is given meaning by a
small regex engine covering exactly the constructs appearing in the
patterns at stake: literal characters, `\c` escapes, `.` (any character
except newline, as in Python without DOTALL), character classes with
ranges such as `[a-z0-9\-]`, the `+` repetition, a trailing `$` anchor
(end of string or just before a final newline, as in Python), and
`re.search` semantics (a match may start at any position).
-/

namespace Bouncy

/-- Python `bytes` are modelled as lists of byte values. -/
abbrev Bytes := List Nat

/-- An SNS payload: the JSON object, a finite map from field names to
string values (all fields of an SNS message are strings). -/
abbrev Payload := List (String × String)

/-- `data[key]` without the exception: `none` models a `KeyError`. -/
def Payload.get (data : Payload) (key : String) : Option String :=
  data.lookup key

/-- Errors a Python exception can carry in this module. -/
inductive PyErr where
  | keyError (key : String)
  | valueError (msg : String)
  | binasciiError
  | typeError
  | attributeError
  | urlError
  | httpError
  deriving Repr, DecidableEq

/-! ### Python `str.format` (named fields only)

`hash_format.format(**data)` substitutes `\x7bName\x7d` placeholders with
`data['Name']`; a referenced name missing from `data` raises `KeyError`.
Substituted values are *not* rescanned.  The two templates in the source
contain only plain named fields, which is what this model covers. -/

def lbrace : Char := '\x7b'

def rbrace : Char := '\x7d'

mutual

/-- Scan literal template text, copying characters until a placeholder
opens; a stray closing brace is a format error (`none`). -/
def fmtPlain (data : Payload) : List Char → Option (List Char)
  | [] => some []
  | c :: rest =>
    if c = lbrace then fmtKey data [] rest
    else if c = rbrace then none
    else (fmtPlain data rest).map (c :: ·)

/-- Scan a placeholder name up to the closing brace, then substitute the
field's value (a missing field is Python's `KeyError`, hence `none`). -/
def fmtKey (data : Payload) (acc : List Char) : List Char → Option (List Char)
  | [] => none
  | c :: rest =>
    if c = rbrace then
      match data.lookup (String.mk acc) with
      | none => none
      | some v => (fmtPlain data rest).map (v.data ++ ·)
    else fmtKey data (acc ++ [c]) rest

end

/-- `template.format(**data)`, as used at utils.py line 112. -/
def pyFormat (template : String) (data : Payload) : Option String :=
  (fmtPlain data template.data).map String.mk

/-- utils.py lines 36–46. -/
def NOTIFICATION_HASH_FORMAT : String :=
  "Message\n{Message}\nMessageId\n{MessageId}\nTimestamp\n{Timestamp}\nTopicArn\n{TopicArn}\nType\n{Type}\n"

/-- utils.py lines 48–62. -/
def SUBSCRIPTION_HASH_FORMAT : String :=
  "Message\n{Message}\nMessageId\n{MessageId}\nSubscribeURL\n{SubscribeURL}\nTimestamp\n{Timestamp}\nToken\n{Token}\nTopicArn\n{TopicArn}\nType\n{Type}\n"

/-! ### A regex engine for the subscription-domain patterns -/

/-- A single-character matcher: a literal character, `.`, or a character
class `[...]` given by its list of inclusive ranges. -/
inductive RBase where
  | lit (c : Char)
  | dot
  | cls (ranges : List (Char × Char))
  deriving Repr, DecidableEq

/-- One regex atom: a single-character matcher, possibly under `+`. -/
structure RAtom where
  base : RBase
  plus : Bool
  deriving Repr, DecidableEq

/-- Does the single-character matcher accept `c`?  Python's `.` (without
DOTALL) matches every character except a newline. -/
def matchBase : RBase → Char → Bool
  | .lit a, c => c = a
  | .dot, c => c ≠ '\n'
  | .cls ranges, c => ranges.any (fun r => r.1 ≤ c ∧ c ≤ r.2)

/-- Parse the body of a character class up to `]`, returning the ranges
and the remaining pattern text. -/
def parseClass (fuel : Nat) (acc : List (Char × Char)) :
    List Char → List (Char × Char) × List Char
  | [] => (acc, [])
  | c :: rest =>
    match fuel with
    | 0 => (acc, [])
    | fuel + 1 =>
      if c = ']' then (acc, rest)
      else if c = '\\' then
        match rest with
        | [] => (acc, [])
        | e :: rest' => parseClass fuel (acc ++ [(e, e)]) rest'
      else
        match rest with
        | '-' :: hi :: rest' =>
          if hi = ']' then (acc ++ [(c, c), ('-', '-')], rest')
          else parseClass fuel (acc ++ [(c, hi)]) rest'
        | _ => parseClass fuel (acc ++ [(c, c)]) rest

/-- Parse a pattern into a list of atoms plus an end-anchor flag (a
trailing `$`). -/
def parseAtoms (fuel : Nat) (acc : List RAtom) :
    List Char → List RAtom × Bool
  | [] => (acc, false)
  | c :: rest =>
    match fuel with
    | 0 => (acc, false)
    | fuel + 1 =>
      if c = '$' ∧ rest = [] then (acc, true)
      else
        let (base, rest') :=
          if c = '\\' then
            match rest with
            | [] => (RBase.lit c, [])
            | e :: rest' => (RBase.lit e, rest')
          else if c = '.' then (RBase.dot, rest)
          else if c = '[' then
            let (ranges, rest') := parseClass fuel [] rest
            (RBase.cls ranges, rest')
          else (RBase.lit c, rest)
        match rest' with
        | '+' :: rest'' => parseAtoms fuel (acc ++ [⟨base, true⟩]) rest''
        | _ => parseAtoms fuel (acc ++ [⟨base, false⟩]) rest'

/-- Parse a whole pattern string. -/
def parsePat (pat : String) : List RAtom × Bool :=
  parseAtoms (pat.length + 1) [] pat.data

/-- Does the atom sequence match the text, starting at its head?  With
the anchor set, the match must consume the text up to its end (or up to
a final newline, as Python's `$` does).  Recursion is by fuel so the
kernel can evaluate it; every recursive call strictly decreases
`atoms.length + s.length`, so fuel `atoms.length + s.length + 1` can
never run out. -/
def matchSeq (fuel : Nat) : List RAtom → Bool → List Char → Bool
  | atoms, anchor, s =>
    match fuel with
    | 0 => false
    | fuel + 1 =>
      match atoms, s with
      | [], s => if anchor then s = [] ∨ s = ['\n'] else true
      | ⟨_, false⟩ :: _, [] => false
      | ⟨b, false⟩ :: rest, c :: s' =>
        matchBase b c && matchSeq fuel rest anchor s'
      | ⟨_, true⟩ :: _, [] => false
      | ⟨b, true⟩ :: rest, c :: s' =>
        matchBase b c &&
          (matchSeq fuel rest anchor s' ||
           matchSeq fuel (⟨b, true⟩ :: rest) anchor s')

/-- Python `re.search(pat, s)` truthiness: some suffix of `s` starts a
match of the pattern. -/
def reSearch (pat : String) (s : String) : Bool :=
  let (atoms, anchor) := parsePat pat
  s.data.tails.any
    (fun suf => matchSeq (atoms.length + suf.length + 1) atoms anchor suf)

/-! ### The environment: network, third-party libraries, settings -/

/-- Outcome of `urlopen(url)`: a successful body, an `urllib.HTTPError`
(which still carries a readable body), or any other failure such as
`URLError`. -/
inductive UrlopenResult where
  | success (body : Bytes)
  | httpErr (body : Bytes)
  | failure
  deriving Repr, DecidableEq

/-- UTF-8 encoding of a character, byte by byte (Django's `force_bytes`
encodes `str` values as UTF-8). -/
def utf8Char (c : Char) : List Nat :=
  let n := c.toNat
  if n < 0x80 then [n]
  else if n < 0x800 then
    [0xC0 + n / 64, 0x80 + n % 64]
  else if n < 0x10000 then
    [0xE0 + n / 4096, 0x80 + n / 64 % 64, 0x80 + n % 64]
  else
    [0xF0 + n / 262144, 0x80 + n / 4096 % 64, 0x80 + n / 64 % 64, 0x80 + n % 64]

/-- `force_bytes(s)`: the UTF-8 bytes of a string. -/
def strBytes (s : String) : Bytes :=
  s.data.flatMap utf8Char

/-- The ambient world of the module: the network and the third-party
libraries it calls into, modelled as uninterpreted functions.  The one
proof field records a fact about the `pem` library that the model relies
on: an empty download parses into zero PEM blocks. -/
structure Env where
  /-- `urlopen(url)` followed by `.read()`. -/
  urlopen : String → UrlopenResult
  /-- `len(pem.parse(bytes))`: how many PEM blocks the bytes parse into. -/
  pemParse : Bytes → Nat
  /-- `load_pem_public_key(bytes)`: `none` models the exception raised on
  a malformed key file; `some k` is the loaded public key. -/
  loadPemPublicKey : Bytes → Option Nat
  /-- `base64.decodebytes(bytes)`: `none` models `binascii.Error` on
  malformed base64. -/
  base64Decode : String → Option Bytes
  /-- `urlparse(url).netloc`. -/
  netloc : String → String
  /-- `pem.parse(b"")` finds no PEM block. -/
  pemParse_nil : pemParse [] = 0

/-- Django settings consulted by the module. -/
structure Settings where
  /-- `settings.BOUNCY_SUBSCRIBE_DOMAIN_REGEX`, absent unless configured. -/
  subscribeDomainRegex : Option String := none

/-- The certificate cache (`caches[...]`): per-URL stored bytes. -/
abbrev Cache := String → Option Bytes

/-- `key_cache.set(url, pemfile)`. -/
def Cache.set (cache : Cache) (url : String) (b : Bytes) : Cache :=
  fun u => if u = url then some b else cache u

/-- Python truthiness of `key_cache.get(url)`: `None` (a miss) and empty
bytes are both falsy. -/
def cacheMiss : Option Bytes → Bool
  | none => true
  | some b => b.isEmpty

/-! ### `grab_keyfile` (utils.py lines 67–91) -/

/-- `grab_keyfile(cert_url)`.  Returns the PEM bytes, a flag recording
whether a network fetch was performed, and the resulting cache; the
cache is returned on the exception path too, so that cache writes are
observable there. -/
def grab_keyfile (env : Env) (cache : Cache) (cert_url : String) :
    Except PyErr (Bytes × Bool) × Cache :=
  if cacheMiss (cache cert_url) then
    match env.urlopen cert_url with
    | .failure => (.error .urlError, cache)
    | .httpErr _ => (.error .httpError, cache)
    | .success pemfile =>
      if env.pemParse pemfile ≠ 1 then
        (.error (.valueError "Invalid Certificate File"), cache)
      else
        (.ok (pemfile, true), cache.set cert_url pemfile)
  else
    match cache cert_url with
    | some pemfile => (.ok (pemfile, false), cache)
    | none => (.error .urlError, cache)

/-! ### `verify_notification` (utils.py lines 94–117) -/

/-- Lines 104–107: the template chosen from `data['Type']`. -/
def selectHashFormat (typ : String) : String :=
  if typ = "Notification" then NOTIFICATION_HASH_FORMAT
  else SUBSCRIPTION_HASH_FORMAT

/-- The call `cert.verify(signature=..., data=..., algorithm=
hashes.SHA256())` at utils.py lines 110–114.  `RSAPublicKey.verify`
has the signature `(signature, data, padding, algorithm)` with no
default for `padding`, and the module imports nothing from
`cryptography...padding`, so the call raises `TypeError` before any
cryptographic work is attempted — for every key, signature and data. -/
def certVerify (_cert : Nat) (_signature : Bytes) (_dataBytes : Bytes) :
    Except PyErr Unit :=
  .error .typeError

/-- Lines 109–117: the `try` block.  Building the canonical string and
making the verify call; *any* exception inside it (a missing templated
field's `KeyError`, the verify call's `TypeError`) yields `False`. -/
def verifyTail (cert : Nat) (signature : Bytes)
    (hash_format : String) (data : Payload) : Bool :=
  match pyFormat hash_format data with
  | none => false
  | some canonical =>
    match certVerify cert signature (strBytes canonical) with
    | .error _ => false
    | .ok _ => true

/-- `verify_notification(data)`.  Exceptions raised before the `try`
block (missing dict keys, certificate fetching, key loading, base64
decoding) propagate as `.error`; the resulting cache is threaded. -/
def verify_notification (env : Env) (cache : Cache) (data : Payload) :
    Except PyErr Bool × Cache :=
  match data.get "SigningCertURL" with
  | none => (.error (.keyError "SigningCertURL"), cache)
  | some certUrl =>
    match grab_keyfile env cache certUrl with
    | (.error e, cache') => (.error e, cache')
    | (.ok (pemfile, _), cache') =>
      match env.loadPemPublicKey pemfile with
      | none => (.error (.valueError "Could not deserialize key data"), cache')
      | some cert =>
        match data.get "Signature" with
        | none => (.error (.keyError "Signature"), cache')
        | some sigText =>
          match env.base64Decode sigText with
          | none => (.error .binasciiError, cache')
          | some signature =>
            match data.get "Type" with
            | none => (.error (.keyError "Type"), cache')
            | some typ =>
              (.ok (verifyTail cert signature (selectHashFormat typ) data),
               cache')

/-! ### `approve_subscription` (utils.py lines 120–153) -/

/-- A Django `HttpResponse`: status code and body bytes. -/
structure HttpResp where
  status : Nat
  body : Bytes
  deriving Repr, DecidableEq

/-- One emission of `signals.subscription.send(...)`. -/
structure SignalRec where
  result : Bytes
  notification : Payload
  deriving Repr, DecidableEq

/-- The default of `settings.BOUNCY_SUBSCRIBE_DOMAIN_REGEX`
(utils.py line 133), exactly as written in the source: the dots are not
escaped. -/
def BOUNCY_SUBSCRIBE_DOMAIN_REGEX_DEFAULT : String :=
  "sns.[a-z0-9\\-]+.amazonaws.com$"

/-- `approve_subscription(data)`.  Returns the `HttpResponse`, the list
of URLs actually fetched, and the signals emitted; `.error` models an
uncaught exception.  The `except urllib.HTTPError` clause at line 142
is only evaluated when `urlopen` raises, and on Python 3 the name
lookup `urllib.HTTPError` then raises `AttributeError` (the `urllib`
package has no such attribute), so an HTTP error response ends in a
propagating `AttributeError`: its body is never read, no signal is
emitted, and no response is returned. -/
def approve_subscription (env : Env) (settings : Settings)
    (data : Payload) :
    Except PyErr (HttpResp × List String × List SignalRec) :=
  match data.get "SubscribeURL" with
  | none => .error (.keyError "SubscribeURL")
  | some url =>
    let domain := env.netloc url
    let pattern :=
      settings.subscribeDomainRegex.getD BOUNCY_SUBSCRIBE_DOMAIN_REGEX_DEFAULT
    if ¬ reSearch pattern domain then
      .ok (⟨400, strBytes "Improper Subscription Domain"⟩, [], [])
    else
      match env.urlopen url with
      | .failure => .error .urlError
      | .success result =>
        .ok (⟨200, result⟩, [url], [⟨result, data⟩])
      | .httpErr _ =>
        .error .attributeError

/-! ### Concrete instances used to exercise the model -/

/-- The regular expression exactly as the spec words the default:
`sns\.[a-z0-9-]+\.amazonaws\.com$`, dots escaped.  Declared only to be
compared against the default actually written in the source. -/
def SPEC_CLAIMED_DOMAIN_REGEX : String :=
  "sns\\.[a-z0-9-]+\\.amazonaws\\.com$"

def certUrlW : String := "https://sns.us-east-1.amazonaws.com/cert.pem"

def certBytes : Bytes := [48, 49, 50]

def sigBytes : Bytes := [9, 9]

/-- A fully populated Notification payload. -/
def samplePayload : Payload :=
  [("Type", "Notification"), ("Message", "hello"), ("MessageId", "mid-1"),
   ("Timestamp", "2012-04-02T01:02:03.000Z"),
   ("TopicArn", "arn:aws:sns:topic"),
   ("SigningCertURL", certUrlW), ("Signature", "c2ln")]

/-- The canonical string of `samplePayload`. -/
def sampleCanonical : String :=
  "Message\nhello\nMessageId\nmid-1\nTimestamp\n2012-04-02T01:02:03.000Z\nTopicArn\narn:aws:sns:topic\nType\nNotification\n"

/-- A well-behaved world: the fetch succeeds with a one-certificate PEM
file, the key loads, and the `Signature` field base64-decodes. -/
def envGood : Env where
  urlopen := fun _ => .success certBytes
  pemParse := fun b => if b.isEmpty then 0 else 1
  loadPemPublicKey := fun _ => some 7
  base64Decode := fun s => if s = "c2ln" then some sigBytes else none
  netloc := fun u =>
    if u = "https://sns.us-east-1.amazonaws.com/confirm?x=1" then
      "sns.us-east-1.amazonaws.com"
    else "evil.example.com"
  pemParse_nil := rfl

/-- As `envGood`, but the PEM bytes do not deserialize into a key. -/
def envBadKey : Env :=
  { envGood with loadPemPublicKey := fun _ => none }

/-- As `envGood`, but the downloaded file parses into two PEM blocks. -/
def envTwoCerts : Env where
  urlopen := envGood.urlopen
  pemParse := fun b => if b.isEmpty then 0 else 2
  loadPemPublicKey := envGood.loadPemPublicKey
  base64Decode := envGood.base64Decode
  netloc := envGood.netloc
  pemParse_nil := rfl

/-- As `envGood`, but the confirmation GET answers with an HTTP error
response whose body is readable. -/
def envHttpErr : Env :=
  { envGood with urlopen := fun _ => .httpErr [52, 48, 52] }

/-- The certificate cache already holding the sample certificate. -/
def cacheW : Cache := fun u => if u = certUrlW then some certBytes else none

/-- An empty certificate cache. -/
def emptyCache : Cache := fun _ => none

/-- `samplePayload` with the `Message` field removed: a missing
templated field, to exercise the `KeyError` inside the `try` block. -/
def payloadNoMessage : Payload :=
  [("Type", "Notification"), ("MessageId", "mid-1"),
   ("Timestamp", "2012-04-02T01:02:03.000Z"),
   ("TopicArn", "arn:aws:sns:topic"),
   ("SigningCertURL", certUrlW), ("Signature", "c2ln")]

/-- `samplePayload` with an altered `Message` value (newline-free). -/
def samplePayloadAltered : Payload :=
  [("Type", "Notification"), ("Message", "bye"), ("MessageId", "mid-1"),
   ("Timestamp", "2012-04-02T01:02:03.000Z"),
   ("TopicArn", "arn:aws:sns:topic"),
   ("SigningCertURL", certUrlW), ("Signature", "c2ln")]

/-- An `UnsubscribeConfirmation` payload, fully populated. -/
def payloadUnsub : Payload :=
  [("Type", "UnsubscribeConfirmation"), ("Message", "m"),
   ("MessageId", "i"), ("SubscribeURL", "u"), ("Timestamp", "t"),
   ("Token", "k"), ("TopicArn", "a"),
   ("SigningCertURL", certUrlW), ("Signature", "c2ln")]

/-- A `SubscriptionConfirmation` payload with the seven templated
fields. -/
def payloadSubFull : Payload :=
  [("Type", "SubscriptionConfirmation"), ("Message", "m"),
   ("MessageId", "i"),
   ("SubscribeURL", "https://sns.us-east-1.amazonaws.com/confirm?x=1"),
   ("Timestamp", "t"), ("Token", "k"), ("TopicArn", "a")]

/-- A payload whose `SubscribeURL` points at a non-AWS host. -/
def payloadEvil : Payload := [("SubscribeURL", "https://evil.example.com/x")]

/-- Two Notification payloads that differ in `Message` and `MessageId`
yet share their canonical string: the values embed the `MessageId`
field-name line. -/
def payloadColl1 : Payload :=
  [("Type", "Notification"), ("Message", "x\nMessageId\ny"),
   ("MessageId", "z"), ("Timestamp", "T"), ("TopicArn", "A")]

def payloadColl2 : Payload :=
  [("Type", "Notification"), ("Message", "x"),
   ("MessageId", "y\nMessageId\nz"), ("Timestamp", "T"), ("TopicArn", "A")]

/-- A host that the unescaped default pattern accepts although it is not
a literal `.amazonaws.com` SNS endpoint: the unescaped dots match `x`. -/
def hostSpoof : String := "snsxus-east-1xamazonawsxcom"

/-- A world whose `urlparse(url).netloc` yields the spoofed host. -/
def envSpoof : Env :=
  { envGood with netloc := fun _ => hostSpoof,
                 urlopen := fun _ => .success [1] }

/-- A subscription payload pointing at the spoofed host. -/
def payloadSpoof : Payload :=
  [("SubscribeURL", "https://snsxus-east-1xamazonawsxcom/x")]

/-- One regex atom simulates another when it has the same repetition
flag and accepts no more characters. -/
def atomLe (x y : RAtom) : Prop :=
  x.plus = y.plus ∧ ∀ c, matchBase x.base c = true → matchBase y.base c = true

/-- The atoms of the source's default pattern (dots unescaped). -/
def codeDefaultAtoms : List RAtom :=
  [⟨.lit 's', false⟩, ⟨.lit 'n', false⟩, ⟨.lit 's', false⟩,
   ⟨.dot, false⟩,
   ⟨.cls [('a', 'z'), ('0', '9'), ('-', '-')], true⟩,
   ⟨.dot, false⟩,
   ⟨.lit 'a', false⟩, ⟨.lit 'm', false⟩, ⟨.lit 'a', false⟩,
   ⟨.lit 'z', false⟩, ⟨.lit 'o', false⟩, ⟨.lit 'n', false⟩,
   ⟨.lit 'a', false⟩, ⟨.lit 'w', false⟩, ⟨.lit 's', false⟩,
   ⟨.dot, false⟩,
   ⟨.lit 'c', false⟩, ⟨.lit 'o', false⟩, ⟨.lit 'm', false⟩]

/-- The atoms of the pattern as the spec words it (dots escaped). -/
def specClaimedAtoms : List RAtom :=
  [⟨.lit 's', false⟩, ⟨.lit 'n', false⟩, ⟨.lit 's', false⟩,
   ⟨.lit '.', false⟩,
   ⟨.cls [('a', 'z'), ('0', '9'), ('-', '-')], true⟩,
   ⟨.lit '.', false⟩,
   ⟨.lit 'a', false⟩, ⟨.lit 'm', false⟩, ⟨.lit 'a', false⟩,
   ⟨.lit 'z', false⟩, ⟨.lit 'o', false⟩, ⟨.lit 'n', false⟩,
   ⟨.lit 'a', false⟩, ⟨.lit 'w', false⟩, ⟨.lit 's', false⟩,
   ⟨.lit '.', false⟩,
   ⟨.lit 'c', false⟩, ⟨.lit 'o', false⟩, ⟨.lit 'm', false⟩]

/-! ### Laws of the `str.format` model -/

theorem fmtPlain_seg (data : Payload) (seg rest : List Char)
    (hseg : ∀ c ∈ seg, c ≠ lbrace ∧ c ≠ rbrace) :
    fmtPlain data (seg ++ rest) = (fmtPlain data rest).map (seg ++ ·) := by
  induction seg with
  | nil =>
    simp [Option.map_id']
  | cons c seg ih =>
    have hc := hseg c (by simp)
    have hrest : ∀ c ∈ seg, c ≠ lbrace ∧ c ≠ rbrace := by
      intro x hx; exact hseg x (by simp [hx])
    simp only [List.cons_append, fmtPlain, if_neg hc.1, if_neg hc.2,
      List.append_eq, ih hrest, Option.map_map]
    rfl

theorem fmtKey_spec (data : Payload) (name acc rest : List Char)
    (hname : ∀ c ∈ name, c ≠ rbrace) :
    fmtKey data acc (name ++ rbrace :: rest) =
      (data.lookup (String.mk (acc ++ name))).bind
        (fun v => (fmtPlain data rest).map (v.data ++ ·)) := by
  induction name generalizing acc with
  | nil =>
    simp only [List.nil_append, fmtKey, if_pos rfl, List.append_nil]
    cases data.lookup (String.mk acc) <;> rfl
  | cons c name ih =>
    have hc := hname c (by simp)
    have hrest : ∀ x ∈ name, x ≠ rbrace := by
      intro x hx; exact hname x (by simp [hx])
    simp only [List.cons_append, fmtKey, if_neg hc, List.append_eq,
      ih (acc ++ [c]) hrest, List.append_assoc, List.singleton_append,
      List.nil_append]

theorem fmtPlain_placeholder (data : Payload) (name rest : List Char)
    (hname : ∀ c ∈ name, c ≠ rbrace) :
    fmtPlain data (lbrace :: (name ++ rbrace :: rest)) =
      (data.lookup (String.mk name)).bind
        (fun v => (fmtPlain data rest).map (v.data ++ ·)) := by
  simp [fmtPlain, fmtKey_spec data name [] rest hname]

theorem mk_data (s : String) : String.mk s.data = s := rfl

/-- Formatting the Notification template: the exact canonical string. -/
theorem pyFormat_notification_eq (data : Payload) (m i ts a ty : String)
    (hm : data.lookup "Message" = some m)
    (hi : data.lookup "MessageId" = some i)
    (hts : data.lookup "Timestamp" = some ts)
    (ha : data.lookup "TopicArn" = some a)
    (hty : data.lookup "Type" = some ty) :
    pyFormat NOTIFICATION_HASH_FORMAT data =
      some ("Message\n" ++ m ++ "\nMessageId\n" ++ i ++ "\nTimestamp\n" ++ ts
        ++ "\nTopicArn\n" ++ a ++ "\nType\n" ++ ty ++ "\n") := by
  have hdecomp : NOTIFICATION_HASH_FORMAT.data =
      "Message\n".data ++ lbrace :: ("Message".data ++ rbrace ::
      ("\nMessageId\n".data ++ lbrace :: ("MessageId".data ++ rbrace ::
      ("\nTimestamp\n".data ++ lbrace :: ("Timestamp".data ++ rbrace ::
      ("\nTopicArn\n".data ++ lbrace :: ("TopicArn".data ++ rbrace ::
      ("\nType\n".data ++ lbrace :: ("Type".data ++ rbrace ::
      "\n".data))))))))) := by rfl
  rw [pyFormat, hdecomp,
    fmtPlain_seg data "Message\n".data _ (by decide),
    fmtPlain_placeholder data "Message".data _ (by decide),
    fmtPlain_seg data "\nMessageId\n".data _ (by decide),
    fmtPlain_placeholder data "MessageId".data _ (by decide),
    fmtPlain_seg data "\nTimestamp\n".data _ (by decide),
    fmtPlain_placeholder data "Timestamp".data _ (by decide),
    fmtPlain_seg data "\nTopicArn\n".data _ (by decide),
    fmtPlain_placeholder data "TopicArn".data _ (by decide),
    fmtPlain_seg data "\nType\n".data _ (by decide),
    fmtPlain_placeholder data "Type".data _ (by decide)]
  rw [show fmtPlain data "\n".data = some "\n".data from rfl]
  simp only [mk_data, hm, hi, hts, ha, hty, Option.bind_some, Option.map_map,
    Option.map_some', Function.comp]
  refine congrArg some (String.ext ?_)
  simp [String.data_append]

/-- Formatting the subscription template: the exact canonical string. -/
theorem pyFormat_subscription_eq (data : Payload) (m i su ts tk a ty : String)
    (hm : data.lookup "Message" = some m)
    (hi : data.lookup "MessageId" = some i)
    (hsu : data.lookup "SubscribeURL" = some su)
    (hts : data.lookup "Timestamp" = some ts)
    (htk : data.lookup "Token" = some tk)
    (ha : data.lookup "TopicArn" = some a)
    (hty : data.lookup "Type" = some ty) :
    pyFormat SUBSCRIPTION_HASH_FORMAT data =
      some ("Message\n" ++ m ++ "\nMessageId\n" ++ i ++ "\nSubscribeURL\n" ++ su
        ++ "\nTimestamp\n" ++ ts ++ "\nToken\n" ++ tk ++ "\nTopicArn\n" ++ a
        ++ "\nType\n" ++ ty ++ "\n") := by
  have hdecomp : SUBSCRIPTION_HASH_FORMAT.data =
      "Message\n".data ++ lbrace :: ("Message".data ++ rbrace ::
      ("\nMessageId\n".data ++ lbrace :: ("MessageId".data ++ rbrace ::
      ("\nSubscribeURL\n".data ++ lbrace :: ("SubscribeURL".data ++ rbrace ::
      ("\nTimestamp\n".data ++ lbrace :: ("Timestamp".data ++ rbrace ::
      ("\nToken\n".data ++ lbrace :: ("Token".data ++ rbrace ::
      ("\nTopicArn\n".data ++ lbrace :: ("TopicArn".data ++ rbrace ::
      ("\nType\n".data ++ lbrace :: ("Type".data ++ rbrace ::
      "\n".data))))))))))))) := by rfl
  rw [pyFormat, hdecomp,
    fmtPlain_seg data "Message\n".data _ (by decide),
    fmtPlain_placeholder data "Message".data _ (by decide),
    fmtPlain_seg data "\nMessageId\n".data _ (by decide),
    fmtPlain_placeholder data "MessageId".data _ (by decide),
    fmtPlain_seg data "\nSubscribeURL\n".data _ (by decide),
    fmtPlain_placeholder data "SubscribeURL".data _ (by decide),
    fmtPlain_seg data "\nTimestamp\n".data _ (by decide),
    fmtPlain_placeholder data "Timestamp".data _ (by decide),
    fmtPlain_seg data "\nToken\n".data _ (by decide),
    fmtPlain_placeholder data "Token".data _ (by decide),
    fmtPlain_seg data "\nTopicArn\n".data _ (by decide),
    fmtPlain_placeholder data "TopicArn".data _ (by decide),
    fmtPlain_seg data "\nType\n".data _ (by decide),
    fmtPlain_placeholder data "Type".data _ (by decide)]
  rw [show fmtPlain data "\n".data = some "\n".data from rfl]
  simp only [mk_data, hm, hi, hsu, hts, htk, ha, hty, Option.bind_some,
    Option.map_map, Option.map_some', Function.comp]
  refine congrArg some (String.ext ?_)
  simp [String.data_append]

/-- The Notification canonical string, seen as newline-separated parts. -/
theorem intercalate_canonical_notification (m i ts a ty : String) :
    ("Message\n" ++ m ++ "\nMessageId\n" ++ i ++ "\nTimestamp\n" ++ ts
      ++ "\nTopicArn\n" ++ a ++ "\nType\n" ++ ty ++ "\n").data
    = List.intercalate ['\n']
        ["Message".data, m.data, "MessageId".data, i.data, "Timestamp".data,
         ts.data, "TopicArn".data, a.data, "Type".data, ty.data, []] := by
  simp [List.intercalate, String.data_append]

/-- The subscription canonical string, seen as newline-separated parts. -/
theorem intercalate_canonical_subscription (m i su ts tk a ty : String) :
    ("Message\n" ++ m ++ "\nMessageId\n" ++ i ++ "\nSubscribeURL\n" ++ su
      ++ "\nTimestamp\n" ++ ts ++ "\nToken\n" ++ tk ++ "\nTopicArn\n" ++ a
      ++ "\nType\n" ++ ty ++ "\n").data
    = List.intercalate ['\n']
        ["Message".data, m.data, "MessageId".data, i.data,
         "SubscribeURL".data, su.data, "Timestamp".data, ts.data,
         "Token".data, tk.data, "TopicArn".data, a.data, "Type".data,
         ty.data, []] := by
  simp [List.intercalate, String.data_append]

/-- Newline-separated concatenation is injective on newline-free parts. -/
theorem intercalate_newline_inj (xs ys : List (List Char))
    (hx : ∀ l ∈ xs, '\n' ∉ l) (hy : ∀ l ∈ ys, '\n' ∉ l)
    (hxne : xs ≠ []) (hyne : ys ≠ [])
    (h : List.intercalate ['\n'] xs = List.intercalate ['\n'] ys) :
    xs = ys := by
  have h1 := List.splitOn_intercalate xs '\n' hx hxne
  have h2 := List.splitOn_intercalate ys '\n' hy hyne
  rw [← h1, ← h2, h]

/-- With newline-free field values, the Notification canonical string
determines the field values. -/
theorem canonical_notification_inj
    (m i ts a ty m' i' ts' a' ty' : String)
    (hm : '\n' ∉ m.data) (hi : '\n' ∉ i.data) (hts : '\n' ∉ ts.data)
    (ha : '\n' ∉ a.data) (hty : '\n' ∉ ty.data)
    (hm' : '\n' ∉ m'.data) (hi' : '\n' ∉ i'.data) (hts' : '\n' ∉ ts'.data)
    (ha' : '\n' ∉ a'.data) (hty' : '\n' ∉ ty'.data)
    (h : "Message\n" ++ m ++ "\nMessageId\n" ++ i ++ "\nTimestamp\n" ++ ts
        ++ "\nTopicArn\n" ++ a ++ "\nType\n" ++ ty ++ "\n"
      = "Message\n" ++ m' ++ "\nMessageId\n" ++ i' ++ "\nTimestamp\n" ++ ts'
        ++ "\nTopicArn\n" ++ a' ++ "\nType\n" ++ ty' ++ "\n") :
    m = m' ∧ i = i' ∧ ts = ts' ∧ a = a' ∧ ty = ty' := by
  have hd := congrArg String.data h
  rw [intercalate_canonical_notification, intercalate_canonical_notification]
    at hd
  have heq := intercalate_newline_inj _ _ ?_ ?_ (by simp) (by simp) hd
  · simp only [List.cons.injEq, and_true] at heq
    exact ⟨String.ext heq.2.1, String.ext heq.2.2.2.1,
      String.ext heq.2.2.2.2.2.1, String.ext heq.2.2.2.2.2.2.2.1,
      String.ext heq.2.2.2.2.2.2.2.2.2⟩
  · intro l hl
    simp only [List.mem_cons, List.not_mem_nil, or_false] at hl
    rcases hl with rfl | rfl | rfl | rfl | rfl | rfl | rfl | rfl | rfl
      | rfl | rfl <;> first | decide | assumption
  · intro l hl
    simp only [List.mem_cons, List.not_mem_nil, or_false] at hl
    rcases hl with rfl | rfl | rfl | rfl | rfl | rfl | rfl | rfl | rfl
      | rfl | rfl <;> first | decide | assumption

/-- With newline-free field values, the subscription canonical string
determines the field values. -/
theorem canonical_subscription_inj
    (m i su ts tk a ty m' i' su' ts' tk' a' ty' : String)
    (hm : '\n' ∉ m.data) (hi : '\n' ∉ i.data) (hsu : '\n' ∉ su.data)
    (hts : '\n' ∉ ts.data) (htk : '\n' ∉ tk.data) (ha : '\n' ∉ a.data)
    (hty : '\n' ∉ ty.data)
    (hm' : '\n' ∉ m'.data) (hi' : '\n' ∉ i'.data) (hsu' : '\n' ∉ su'.data)
    (hts' : '\n' ∉ ts'.data) (htk' : '\n' ∉ tk'.data) (ha' : '\n' ∉ a'.data)
    (hty' : '\n' ∉ ty'.data)
    (h : "Message\n" ++ m ++ "\nMessageId\n" ++ i ++ "\nSubscribeURL\n" ++ su
        ++ "\nTimestamp\n" ++ ts ++ "\nToken\n" ++ tk ++ "\nTopicArn\n" ++ a
        ++ "\nType\n" ++ ty ++ "\n"
      = "Message\n" ++ m' ++ "\nMessageId\n" ++ i' ++ "\nSubscribeURL\n" ++ su'
        ++ "\nTimestamp\n" ++ ts' ++ "\nToken\n" ++ tk' ++ "\nTopicArn\n" ++ a'
        ++ "\nType\n" ++ ty' ++ "\n") :
    m = m' ∧ i = i' ∧ su = su' ∧ ts = ts' ∧ tk = tk' ∧ a = a' ∧ ty = ty' := by
  have hd := congrArg String.data h
  rw [intercalate_canonical_subscription, intercalate_canonical_subscription]
    at hd
  have heq := intercalate_newline_inj _ _ ?_ ?_ (by simp) (by simp) hd
  · simp only [List.cons.injEq, and_true] at heq
    exact ⟨String.ext heq.2.1, String.ext heq.2.2.2.1,
      String.ext heq.2.2.2.2.2.1, String.ext heq.2.2.2.2.2.2.2.1,
      String.ext heq.2.2.2.2.2.2.2.2.2.1,
      String.ext heq.2.2.2.2.2.2.2.2.2.2.2.1,
      String.ext heq.2.2.2.2.2.2.2.2.2.2.2.2.2⟩
  · intro l hl
    simp only [List.mem_cons, List.not_mem_nil, or_false] at hl
    rcases hl with rfl | rfl | rfl | rfl | rfl | rfl | rfl | rfl | rfl
      | rfl | rfl | rfl | rfl | rfl | rfl <;> first | decide | assumption
  · intro l hl
    simp only [List.mem_cons, List.not_mem_nil, or_false] at hl
    rcases hl with rfl | rfl | rfl | rfl | rfl | rfl | rfl | rfl | rfl
      | rfl | rfl | rfl | rfl | rfl | rfl <;> first | decide | assumption

/-! ### Laws of the regex model -/

/-- Pointwise simulation of atoms lifts to whole-sequence matching, at
any shared fuel. -/
theorem matchSeq_mono (fuel : Nat) :
    ∀ (xs ys : List RAtom) (anchor : Bool) (s : List Char),
      List.Forall₂ atomLe xs ys → matchSeq fuel xs anchor s = true →
      matchSeq fuel ys anchor s = true := by
  induction fuel with
  | zero =>
    intro xs ys anchor s _ h
    simp [matchSeq] at h
  | succ fuel ih =>
    intro xs ys anchor s hrel h
    cases hrel with
    | nil => exact h
    | @cons a b xs' ys' hab hrest =>
      obtain ⟨abase, aplus⟩ := a
      obtain ⟨bbase, bplus⟩ := b
      obtain ⟨hplus, hbase⟩ := hab
      simp only at hplus
      subst hplus
      cases s with
      | nil =>
        exfalso
        cases aplus <;> simp [matchSeq] at h
      | cons c s' =>
        cases aplus with
        | false =>
          simp only [matchSeq, Bool.and_eq_true] at h ⊢
          exact ⟨hbase c h.1, ih xs' ys' anchor s' hrest h.2⟩
        | true =>
          simp only [matchSeq, Bool.and_eq_true, Bool.or_eq_true] at h ⊢
          refine ⟨hbase c h.1, ?_⟩
          rcases h.2 with h2 | h2
          · exact Or.inl (ih xs' ys' anchor s' hrest h2)
          · exact Or.inr (ih (⟨abase, true⟩ :: xs') (⟨bbase, true⟩ :: ys')
              anchor s' (List.Forall₂.cons ⟨rfl, hbase⟩ hrest) h2)

/-- An atom simulates itself. -/
theorem atomLe_refl (x : RAtom) : atomLe x x :=
  ⟨rfl, fun _ h => h⟩

/-- A literal-dot atom is simulated by the wildcard-dot atom. -/
theorem atomLe_lit_dot (p : Bool) :
    atomLe ⟨.lit '.', p⟩ ⟨.dot, p⟩ := by
  refine ⟨rfl, fun c h => ?_⟩
  simp only [matchBase, decide_eq_true_eq] at h
  subst h
  show matchBase RBase.dot '.' = true
  decide

/-- The spec's escaped atoms are simulated pointwise by the source's
unescaped atoms. -/
theorem specClaimedAtoms_le : List.Forall₂ atomLe specClaimedAtoms codeDefaultAtoms := by
  unfold specClaimedAtoms codeDefaultAtoms
  refine List.Forall₂.cons (atomLe_refl _) ?_
  refine List.Forall₂.cons (atomLe_refl _) ?_
  refine List.Forall₂.cons (atomLe_refl _) ?_
  refine List.Forall₂.cons (atomLe_lit_dot _) ?_
  refine List.Forall₂.cons (atomLe_refl _) ?_
  refine List.Forall₂.cons (atomLe_lit_dot _) ?_
  refine List.Forall₂.cons (atomLe_refl _) ?_
  refine List.Forall₂.cons (atomLe_refl _) ?_
  refine List.Forall₂.cons (atomLe_refl _) ?_
  refine List.Forall₂.cons (atomLe_refl _) ?_
  refine List.Forall₂.cons (atomLe_refl _) ?_
  refine List.Forall₂.cons (atomLe_refl _) ?_
  refine List.Forall₂.cons (atomLe_refl _) ?_
  refine List.Forall₂.cons (atomLe_refl _) ?_
  refine List.Forall₂.cons (atomLe_refl _) ?_
  refine List.Forall₂.cons (atomLe_lit_dot _) ?_
  refine List.Forall₂.cons (atomLe_refl _) ?_
  refine List.Forall₂.cons (atomLe_refl _) ?_
  refine List.Forall₂.cons (atomLe_refl _) ?_
  exact List.Forall₂.nil

/-- Parsing the source's default pattern. -/
theorem parse_codeDefault :
    parsePat BOUNCY_SUBSCRIBE_DOMAIN_REGEX_DEFAULT = (codeDefaultAtoms, true) := by
  decide

/-- Parsing the pattern as the spec words it. -/
theorem parse_specClaimed :
    parsePat SPEC_CLAIMED_DOMAIN_REGEX = (specClaimedAtoms, true) := by
  decide

/-- The `try` block can never answer `True`: either the canonical
string fails to build (a `KeyError`) or the verify call raises its
`TypeError`; both are caught and collapse to `False`. -/
theorem verifyTail_false (cert : Nat) (signature : Bytes)
    (hash_format : String) (data : Payload) :
    verifyTail cert signature hash_format data = false := by
  unfold verifyTail
  cases h : pyFormat hash_format data with
  | none => rfl
  | some canonical => rfl

/-- `verify_notification` can never return `True`: every pre-`try` step
either raises or reaches the `try` block, whose result is always
`False`. -/
theorem verify_never_ok_true (env : Env) (cache : Cache) (data : Payload) :
    (verify_notification env cache data).1 ≠ .ok true := by
  intro h
  cases h1 : data.get "SigningCertURL" with
  | none =>
    rw [show verify_notification env cache data =
        (.error (.keyError "SigningCertURL"), cache) from by
      simp [verify_notification, h1]] at h
    simp at h
  | some certUrl =>
    rcases hg : grab_keyfile env cache certUrl with ⟨res, c'⟩
    cases res with
    | error e =>
      rw [show verify_notification env cache data = (.error e, c') from by
        simp [verify_notification, h1, hg]] at h
      simp at h
    | ok pr =>
      rcases pr with ⟨pemfile, fetched⟩
      cases h3 : env.loadPemPublicKey pemfile with
      | none =>
        rw [show verify_notification env cache data =
            (.error (.valueError "Could not deserialize key data"), c') from by
          simp [verify_notification, h1, hg, h3]] at h
        simp at h
      | some cert =>
        cases h4 : data.get "Signature" with
        | none =>
          rw [show verify_notification env cache data =
              (.error (.keyError "Signature"), c') from by
            simp [verify_notification, h1, hg, h3, h4]] at h
          simp at h
        | some sigText =>
          cases h5 : env.base64Decode sigText with
          | none =>
            rw [show verify_notification env cache data =
                (.error .binasciiError, c') from by
              simp [verify_notification, h1, hg, h3, h4, h5]] at h
            simp at h
          | some signature =>
            cases h6 : data.get "Type" with
            | none =>
              rw [show verify_notification env cache data =
                  (.error (.keyError "Type"), c') from by
                simp [verify_notification, h1, hg, h3, h4, h5, h6]] at h
              simp at h
            | some typ =>
              rw [show verify_notification env cache data =
                  (.ok (verifyTail cert signature (selectHashFormat typ)
                    data), c') from by
                simp [verify_notification, h1, hg, h3, h4, h5, h6]] at h
              have hv : verifyTail cert signature (selectHashFormat typ)
                  data = true := Except.ok.inj h
              rw [verifyTail_false] at hv
              exact Bool.noConfusion hv

/-! ### Claims -/

/-- C4: each canonical-string template places every field name on its
own line immediately followed by the field's literal value, separated by
single newlines with a trailing newline: the Notification template in
the order Message, MessageId, Timestamp, TopicArn, Type, and the
subscription template in the order Message, MessageId, SubscribeURL,
Timestamp, Token, TopicArn, Type. -/
theorem c4_canonical_templates :
    (∀ (data : Payload) (m i ts a ty : String),
      data.lookup "Message" = some m → data.lookup "MessageId" = some i →
      data.lookup "Timestamp" = some ts → data.lookup "TopicArn" = some a →
      data.lookup "Type" = some ty →
      pyFormat NOTIFICATION_HASH_FORMAT data =
        some ("Message\n" ++ m ++ "\nMessageId\n" ++ i ++ "\nTimestamp\n" ++ ts
          ++ "\nTopicArn\n" ++ a ++ "\nType\n" ++ ty ++ "\n")) ∧
    (∀ (data : Payload) (m i su ts tk a ty : String),
      data.lookup "Message" = some m → data.lookup "MessageId" = some i →
      data.lookup "SubscribeURL" = some su →
      data.lookup "Timestamp" = some ts → data.lookup "Token" = some tk →
      data.lookup "TopicArn" = some a → data.lookup "Type" = some ty →
      pyFormat SUBSCRIPTION_HASH_FORMAT data =
        some ("Message\n" ++ m ++ "\nMessageId\n" ++ i ++ "\nSubscribeURL\n"
          ++ su ++ "\nTimestamp\n" ++ ts ++ "\nToken\n" ++ tk
          ++ "\nTopicArn\n" ++ a ++ "\nType\n" ++ ty ++ "\n")) :=
  ⟨fun data m i ts a ty hm hi hts ha hty =>
    pyFormat_notification_eq data m i ts a ty hm hi hts ha hty,
   fun data m i su ts tk a ty hm hi hsu hts htk ha hty =>
    pyFormat_subscription_eq data m i su ts tk a ty hm hi hsu hts htk ha hty⟩

/-- C4 witness: both templates evaluated on concrete payloads. -/
theorem c4_witness :
    pyFormat NOTIFICATION_HASH_FORMAT samplePayload = some sampleCanonical ∧
    pyFormat SUBSCRIPTION_HASH_FORMAT payloadSubFull =
      some "Message\nm\nMessageId\ni\nSubscribeURL\nhttps://sns.us-east-1.amazonaws.com/confirm?x=1\nTimestamp\nt\nToken\nk\nTopicArn\na\nType\nSubscriptionConfirmation\n" := by
  constructor
  · have h := c4_canonical_templates.1 samplePayload "hello" "mid-1"
      "2012-04-02T01:02:03.000Z" "arn:aws:sns:topic" "Notification"
      rfl rfl rfl rfl rfl
    exact h.trans (by rfl)
  · have h := c4_canonical_templates.2 payloadSubFull "m" "i"
      "https://sns.us-east-1.amazonaws.com/confirm?x=1" "t" "k" "a"
      "SubscriptionConfirmation" rfl rfl rfl rfl rfl rfl rfl
    exact h.trans (by rfl)

/-- C6: on a cache miss, a downloaded body that does not parse into
exactly one PEM certificate (zero blocks — in particular an empty body —
or several) raises `ValueError('Invalid Certificate File')` and writes
nothing to the cache; the bytes are stored only after the
exactly-one-certificate check succeeds. -/
theorem c6_invalid_certificate (env : Env) (cache : Cache) (url : String)
    (body : Bytes)
    (hmiss : cacheMiss (cache url) = true)
    (hfetch : env.urlopen url = .success body) :
    (env.pemParse body ≠ 1 →
      grab_keyfile env cache url =
        (.error (.valueError "Invalid Certificate File"), cache)) ∧
    (body = [] →
      grab_keyfile env cache url =
        (.error (.valueError "Invalid Certificate File"), cache)) ∧
    (env.pemParse body = 1 →
      grab_keyfile env cache url = (.ok (body, true), Cache.set cache url body)) := by
  refine ⟨?_, ?_, ?_⟩
  · intro hne
    simp [grab_keyfile, hmiss, hfetch, hne]
  · intro hnil
    subst hnil
    simp [grab_keyfile, hmiss, hfetch, env.pemParse_nil]
  · intro hone
    simp [grab_keyfile, hmiss, hfetch, hone]

/-- C6 witness: a two-certificate download is rejected and the cache is
left untouched; a one-certificate download is stored. -/
theorem c6_witness :
    grab_keyfile envTwoCerts emptyCache certUrlW =
      (.error (.valueError "Invalid Certificate File"), emptyCache) ∧
    grab_keyfile envGood emptyCache certUrlW =
      (.ok (certBytes, true), Cache.set emptyCache certUrlW certBytes) := by
  constructor
  · exact (c6_invalid_certificate envTwoCerts emptyCache certUrlW certBytes
      rfl rfl).1 (by decide)
  · exact (c6_invalid_certificate envGood emptyCache certUrlW certBytes
      rfl rfl).2.2 (by decide)

/-- C7: when the `SubscribeURL` host fails the allow-list regex,
`approve_subscription` performs no outbound request, emits no
subscription signal, raises nothing, and returns a 400 response. -/
theorem c7_domain_mismatch (env : Env) (settings : Settings) (data : Payload)
    (url : String)
    (hurl : data.get "SubscribeURL" = some url)
    (hre : reSearch
        (settings.subscribeDomainRegex.getD BOUNCY_SUBSCRIBE_DOMAIN_REGEX_DEFAULT)
        (env.netloc url) = false) :
    approve_subscription env settings data =
      .ok (⟨400, strBytes "Improper Subscription Domain"⟩, [], []) := by
  simp [approve_subscription, hurl, hre]

/-- C7 witness: a non-AWS host is turned away with a 400 and no
request. -/
theorem c7_witness :
    approve_subscription envGood ⟨none⟩ payloadEvil =
      .ok (⟨400, strBytes "Improper Subscription Domain"⟩, [], []) :=
  c7_domain_mismatch envGood ⟨none⟩ payloadEvil
    "https://evil.example.com/x" rfl (by decide)

/-- C8: once a fetch has succeeded for a URL, the fetched bytes are in
the cache under that URL, and any later call that still finds them there
returns them without a new network fetch and leaves the cache as is. -/
theorem c8_cache_after_fetch (env : Env) (cache : Cache) (url : String)
    (b : Bytes) (cache' : Cache)
    (h : grab_keyfile env cache url = (.ok (b, true), cache')) :
    cache' url = some b ∧
    ∀ cache2 : Cache, cache2 url = some b →
      grab_keyfile env cache2 url = (.ok (b, false), cache2) := by
  by_cases hmiss : cacheMiss (cache url) = true
  · cases hu : env.urlopen url with
    | failure =>
      have hg : grab_keyfile env cache url = (.error .urlError, cache) := by
        simp [grab_keyfile, hmiss, hu]
      rw [hg] at h
      exact absurd h (by simp)
    | httpErr bb =>
      have hg : grab_keyfile env cache url = (.error .httpError, cache) := by
        simp [grab_keyfile, hmiss, hu]
      rw [hg] at h
      exact absurd h (by simp)
    | success body =>
      by_cases hp : env.pemParse body = 1
      · have hg : grab_keyfile env cache url =
            (.ok (body, true), Cache.set cache url body) := by
          simp [grab_keyfile, hmiss, hu, hp]
        rw [hg] at h
        injection h with h1 h2
        injection h1 with h3
        injection h3 with hbody hflag
        subst hbody
        subst h2
        have hb : body ≠ [] := by
          intro hnil
          rw [hnil, env.pemParse_nil] at hp
          exact absurd hp (by decide)
        refine ⟨by simp [Cache.set], ?_⟩
        intro cache2 h2c
        have hmiss2 : cacheMiss (some body) = false := by
          cases body with
          | nil => exact absurd rfl hb
          | cons x xs => simp [cacheMiss]
        simp [grab_keyfile, h2c, hmiss2]
      · have hg : grab_keyfile env cache url =
            (.error (.valueError "Invalid Certificate File"), cache) := by
          simp [grab_keyfile, hmiss, hu, hp]
        rw [hg] at h
        exact absurd h (by simp)
  · exfalso
    rw [Bool.not_eq_true] at hmiss
    cases hc : cache url with
    | none => rw [hc] at hmiss; simp [cacheMiss] at hmiss
    | some pm =>
      have hg : grab_keyfile env cache url = (.ok (pm, false), cache) := by
        unfold grab_keyfile
        rw [hc] at hmiss
        simp [hc, hmiss]
      rw [hg] at h
      injection h with h1 h2
      injection h1 with h3
      injection h3 with hbody hflag
      exact Bool.noConfusion hflag

/-- C8 witness: a concrete fetch populates the cache and the next call
is served from it without fetching. -/
theorem c8_witness :
    (Cache.set emptyCache certUrlW certBytes) certUrlW = some certBytes ∧
    grab_keyfile envGood (Cache.set emptyCache certUrlW certBytes) certUrlW =
      (.ok (certBytes, false), Cache.set emptyCache certUrlW certBytes) := by
  have h := c8_cache_after_fetch envGood emptyCache certUrlW certBytes
    (Cache.set emptyCache certUrlW certBytes) rfl
  exact ⟨h.1, h.2 _ h.1⟩

/-- C9 (code bug evaluation): when the confirmation GET answers with an
HTTP error response, the `except urllib.HTTPError` clause at line 142
is evaluated and — `urllib` having no `HTTPError` attribute on
Python 3 — raises `AttributeError`, which propagates: the error body is
not captured, no subscription signal is emitted, and no 200 response is
returned, contrary to the claim. -/
theorem c9_http_error_not_captured :
    (∀ (env : Env) (settings : Settings) (data : Payload) (url : String)
      (body : Bytes),
      data.get "SubscribeURL" = some url →
      reSearch
        (settings.subscribeDomainRegex.getD BOUNCY_SUBSCRIBE_DOMAIN_REGEX_DEFAULT)
        (env.netloc url) = true →
      env.urlopen url = .httpErr body →
      approve_subscription env settings data = .error .attributeError) ∧
    approve_subscription envHttpErr ⟨none⟩ payloadSubFull =
      .error .attributeError := by
  constructor
  · intro env settings data url body hurl hre hopen
    simp [approve_subscription, hurl, hre, hopen]
  · rfl

/-- C9 witness: the general statement applied at a concrete 404. -/
theorem c9_attributeerror_witness :
    approve_subscription envHttpErr ⟨none⟩ payloadSubFull =
      .error .attributeError :=
  c9_http_error_not_captured.1 envHttpErr ⟨none⟩ payloadSubFull
    "https://sns.us-east-1.amazonaws.com/confirm?x=1" [52, 48, 52]
    rfl (by decide) rfl

/-- C10: every `Type` other than the exact string `"Notification"` —
`UnsubscribeConfirmation`, an unknown string, the empty string — selects
the subscription template, and `verify_notification` proceeds with it
rather than rejecting the payload. -/
theorem c10_non_notification_template (env : Env) (cache : Cache)
    (data : Payload) (certUrl : String) (pemfile : Bytes) (fetched : Bool)
    (cache' : Cache) (cert : Nat) (sigText : String) (signature : Bytes)
    (typ : String)
    (h1 : data.get "SigningCertURL" = some certUrl)
    (h2 : grab_keyfile env cache certUrl = (.ok (pemfile, fetched), cache'))
    (h3 : env.loadPemPublicKey pemfile = some cert)
    (h4 : data.get "Signature" = some sigText)
    (h5 : env.base64Decode sigText = some signature)
    (h6 : data.get "Type" = some typ)
    (h7 : typ ≠ "Notification") :
    selectHashFormat typ = SUBSCRIPTION_HASH_FORMAT ∧
    verify_notification env cache data =
      (.ok (verifyTail cert signature SUBSCRIPTION_HASH_FORMAT data),
       cache') := by
  have hsel : selectHashFormat typ = SUBSCRIPTION_HASH_FORMAT := by
    simp [selectHashFormat, h7]
  refine ⟨hsel, ?_⟩
  simp [verify_notification, h1, h2, h3, h4, h5, h6, hsel]

/-- C10 witness: an `UnsubscribeConfirmation` payload flows through the
subscription template. -/
theorem c10_witness :
    selectHashFormat "UnsubscribeConfirmation" = SUBSCRIPTION_HASH_FORMAT ∧
    verify_notification envGood cacheW payloadUnsub =
      (.ok (verifyTail 7 sigBytes SUBSCRIPTION_HASH_FORMAT
        payloadUnsub), cacheW) :=
  c10_non_notification_template envGood cacheW payloadUnsub certUrlW
    certBytes false cacheW 7 "c2ln" sigBytes "UnsubscribeConfirmation"
    rfl rfl rfl rfl rfl rfl (by decide)

/-- C3 (code bug evaluation): the verify call at utils.py lines 110-114
omits the mandatory `padding` argument of `RSAPublicKey.verify` (the
module imports no padding), so it raises `TypeError`, the bare
`except Exception` turns that into `False`, and `verify_notification`
can never return `True` — in particular not for a payload whose
`Signature` is a genuinely valid RSA PKCS#1 v1.5 / SHA-256 signature
over the canonical string, contrary to the claim. -/
theorem c3_crypto_check_never_succeeds :
    (∀ (env : Env) (cache : Cache) (data : Payload),
      (verify_notification env cache data).1 ≠ .ok true) ∧
    (∀ (cert : Nat) (signature dataBytes : Bytes),
      certVerify cert signature dataBytes = .error .typeError) ∧
    verify_notification envGood cacheW samplePayload = (.ok false, cacheW) :=
  ⟨fun env cache data => verify_never_ok_true env cache data,
   fun _ _ _ => rfl,
   rfl⟩

/-- C1 counterexample: with a well-formed payload whose certificate
bytes fail to deserialize into a key (step 2), `verify_notification`
raises the `ValueError` instead of returning the boolean `False`. -/
theorem c1_counterexample :
    (verify_notification envBadKey cacheW samplePayload).1 =
      .error (.valueError "Could not deserialize key data") ∧
    (verify_notification envBadKey cacheW samplePayload).1 ≠
      .ok false := by
  refine ⟨rfl, ?_⟩
  intro hcontra
  rw [show (verify_notification envBadKey cacheW samplePayload).1 =
      .error (.valueError "Could not deserialize key data") from rfl]
    at hcontra
  exact Except.noConfusion hcontra

/-- C1 (amended): only failures raised inside the `try` block — building
the canonical string (including a missing templated field) and the
verify call itself (whose `TypeError` always fires, see `certVerify`) —
collapse to the plain boolean `False` with no detail; failures loading
the key from the PEM bytes or base64-decoding the `Signature` field
occur before the `try` block and propagate as exceptions. -/
theorem c1_fail_closed_inside_try (env : Env) (cache : Cache)
    (data : Payload) (certUrl : String) (pemfile : Bytes) (fetched : Bool)
    (cache' : Cache) (cert : Nat) (sigText : String) (signature : Bytes)
    (typ : String)
    (h1 : data.get "SigningCertURL" = some certUrl)
    (h2 : grab_keyfile env cache certUrl = (.ok (pemfile, fetched), cache'))
    (h3 : env.loadPemPublicKey pemfile = some cert)
    (h4 : data.get "Signature" = some sigText)
    (h5 : env.base64Decode sigText = some signature)
    (h6 : data.get "Type" = some typ) :
    verify_notification env cache data =
      (.ok (verifyTail cert signature (selectHashFormat typ) data),
        cache') ∧
    (pyFormat (selectHashFormat typ) data = none →
      verifyTail cert signature (selectHashFormat typ) data = false) ∧
    (∀ canonical, pyFormat (selectHashFormat typ) data = some canonical →
      verifyTail cert signature (selectHashFormat typ) data = false) := by
  refine ⟨?_, ?_, ?_⟩
  · simp [verify_notification, h1, h2, h3, h4, h5, h6]
  · intro hnone
    rw [verifyTail, hnone]
  · intro canonical hsome
    rw [verifyTail, hsome]
    rfl

/-- C1 witness: a payload missing its `Message` field — a `KeyError`
raised inside the `try` block — yields the plain boolean `False`. -/
theorem c1_witness :
    (verify_notification envGood cacheW payloadNoMessage).1 = .ok false := by
  have h := c1_fail_closed_inside_try envGood cacheW payloadNoMessage
    certUrlW certBytes false cacheW 7 "c2ln" sigBytes "Notification"
    rfl rfl rfl rfl rfl rfl
  have hfalse := h.2.1 (by rfl)
  rw [h.1, hfalse]

/-- C2 counterexample: the default pattern written in the source accepts
the host `snsxus-east-1xamazonawsxcom` (its unescaped dots match `x`),
which the spec's escaped pattern rejects, and `approve_subscription`
goes on to perform the GET against it. -/
theorem c2_counterexample :
    reSearch BOUNCY_SUBSCRIBE_DOMAIN_REGEX_DEFAULT hostSpoof = true ∧
    reSearch SPEC_CLAIMED_DOMAIN_REGEX hostSpoof = false ∧
    approve_subscription envSpoof ⟨none⟩ payloadSpoof =
      .ok (⟨200, [1]⟩, ["https://snsxus-east-1xamazonawsxcom/x"],
        [⟨[1], payloadSpoof⟩]) := by
  refine ⟨by decide, by decide, by rfl⟩

/-- C2 (amended): when `BOUNCY_SUBSCRIBE_DOMAIN_REGEX` is absent the
pattern applied is `sns.[a-z0-9\-]+.amazonaws.com$` with the dots left
unescaped, so they match any character: every host matching the escaped
pattern `sns\.[a-z0-9-]+\.amazonaws\.com$` still passes the check, but
the two patterns are not equivalent. -/
theorem c2_default_pattern_unescaped :
    BOUNCY_SUBSCRIBE_DOMAIN_REGEX_DEFAULT = "sns.[a-z0-9\\-]+.amazonaws.com$" ∧
    ∀ s : String, reSearch SPEC_CLAIMED_DOMAIN_REGEX s = true →
      reSearch BOUNCY_SUBSCRIBE_DOMAIN_REGEX_DEFAULT s = true := by
  refine ⟨rfl, ?_⟩
  intro s h
  unfold reSearch at h ⊢
  rw [parse_specClaimed] at h
  rw [parse_codeDefault]
  simp only [List.any_eq_true] at h ⊢
  obtain ⟨suf, hmem, hm⟩ := h
  refine ⟨suf, hmem, ?_⟩
  have hlen : codeDefaultAtoms.length = specClaimedAtoms.length := by decide
  rw [hlen]
  exact matchSeq_mono (specClaimedAtoms.length + suf.length + 1)
    specClaimedAtoms codeDefaultAtoms true suf specClaimedAtoms_le hm

/-- C2 witness: a genuine SNS endpoint host passes the source's default
pattern, via the escaped pattern it refines. -/
theorem c2_witness :
    reSearch BOUNCY_SUBSCRIBE_DOMAIN_REGEX_DEFAULT
      "sns.eu-west-2.amazonaws.com" = true :=
  c2_default_pattern_unescaped.2 "sns.eu-west-2.amazonaws.com" (by decide)

/-- C5 counterexample: two Notification payloads of the same `Type`
differing in `Message` (and `MessageId`) whose canonical strings are
byte-identical: the differing values smuggle the `MessageId` field-name
line inside a value. -/
theorem c5_counterexample :
    payloadColl1.lookup "Type" = payloadColl2.lookup "Type" ∧
    payloadColl1.lookup "Message" ≠ payloadColl2.lookup "Message" ∧
    pyFormat (selectHashFormat "Notification") payloadColl1 =
      pyFormat (selectHashFormat "Notification") payloadColl2 := by
  refine ⟨rfl, by decide, by rfl⟩

/-- C5 (amended): building the canonical string is deterministic, and it
is sensitive to the templated fields provided no field value contains a
newline character: two payloads formatted with the same template that
differ in at least one templated field then produce different canonical
strings. -/
theorem c5_deterministic_and_sensitive :
    (∀ (fmt : String) (data : Payload),
      pyFormat fmt data = pyFormat fmt data) ∧
    (∀ (data data' : Payload) (m i ts a ty m' i' ts' a' ty' : String),
      data.lookup "Message" = some m → data.lookup "MessageId" = some i →
      data.lookup "Timestamp" = some ts → data.lookup "TopicArn" = some a →
      data.lookup "Type" = some ty →
      data'.lookup "Message" = some m' → data'.lookup "MessageId" = some i' →
      data'.lookup "Timestamp" = some ts' → data'.lookup "TopicArn" = some a' →
      data'.lookup "Type" = some ty' →
      '\n' ∉ m.data → '\n' ∉ i.data → '\n' ∉ ts.data → '\n' ∉ a.data →
      '\n' ∉ ty.data → '\n' ∉ m'.data → '\n' ∉ i'.data → '\n' ∉ ts'.data →
      '\n' ∉ a'.data → '\n' ∉ ty'.data →
      ¬(m = m' ∧ i = i' ∧ ts = ts' ∧ a = a' ∧ ty = ty') →
      pyFormat NOTIFICATION_HASH_FORMAT data ≠
        pyFormat NOTIFICATION_HASH_FORMAT data') ∧
    (∀ (data data' : Payload)
      (m i su ts tk a ty m' i' su' ts' tk' a' ty' : String),
      data.lookup "Message" = some m → data.lookup "MessageId" = some i →
      data.lookup "SubscribeURL" = some su →
      data.lookup "Timestamp" = some ts → data.lookup "Token" = some tk →
      data.lookup "TopicArn" = some a → data.lookup "Type" = some ty →
      data'.lookup "Message" = some m' → data'.lookup "MessageId" = some i' →
      data'.lookup "SubscribeURL" = some su' →
      data'.lookup "Timestamp" = some ts' → data'.lookup "Token" = some tk' →
      data'.lookup "TopicArn" = some a' → data'.lookup "Type" = some ty' →
      '\n' ∉ m.data → '\n' ∉ i.data → '\n' ∉ su.data → '\n' ∉ ts.data →
      '\n' ∉ tk.data → '\n' ∉ a.data → '\n' ∉ ty.data →
      '\n' ∉ m'.data → '\n' ∉ i'.data → '\n' ∉ su'.data → '\n' ∉ ts'.data →
      '\n' ∉ tk'.data → '\n' ∉ a'.data → '\n' ∉ ty'.data →
      ¬(m = m' ∧ i = i' ∧ su = su' ∧ ts = ts' ∧ tk = tk' ∧ a = a' ∧
        ty = ty') →
      pyFormat SUBSCRIPTION_HASH_FORMAT data ≠
        pyFormat SUBSCRIPTION_HASH_FORMAT data') := by
  refine ⟨fun _ _ => rfl, ?_, ?_⟩
  · intro data data' m i ts a ty m' i' ts' a' ty' hm hi hts ha hty hm' hi'
      hts' ha' hty' nm ni nts na nty nm' ni' nts' na' nty' hne heq
    rw [pyFormat_notification_eq data m i ts a ty hm hi hts ha hty,
      pyFormat_notification_eq data' m' i' ts' a' ty' hm' hi' hts' ha' hty']
      at heq
    exact hne (canonical_notification_inj m i ts a ty m' i' ts' a' ty'
      nm ni nts na nty nm' ni' nts' na' nty' (Option.some.inj heq))
  · intro data data' m i su ts tk a ty m' i' su' ts' tk' a' ty'
      hm hi hsu hts htk ha hty hm' hi' hsu' hts' htk' ha' hty'
      nm ni nsu nts ntk na nty nm' ni' nsu' nts' ntk' na' nty' hne heq
    rw [pyFormat_subscription_eq data m i su ts tk a ty hm hi hsu hts htk
      ha hty,
      pyFormat_subscription_eq data' m' i' su' ts' tk' a' ty' hm' hi' hsu'
      hts' htk' ha' hty'] at heq
    exact hne (canonical_subscription_inj m i su ts tk a ty m' i' su' ts'
      tk' a' ty' nm ni nsu nts ntk na nty nm' ni' nsu' nts' ntk' na' nty'
      (Option.some.inj heq))

/-- C5 witness: altering `Message` from `hello` to `bye` (newline-free
values) changes the Notification canonical string. -/
theorem c5_witness :
    pyFormat NOTIFICATION_HASH_FORMAT samplePayload ≠
      pyFormat NOTIFICATION_HASH_FORMAT samplePayloadAltered :=
  c5_deterministic_and_sensitive.2.1 samplePayload samplePayloadAltered
    "hello" "mid-1" "2012-04-02T01:02:03.000Z" "arn:aws:sns:topic"
    "Notification" "bye" "mid-1" "2012-04-02T01:02:03.000Z"
    "arn:aws:sns:topic" "Notification"
    rfl rfl rfl rfl rfl rfl rfl rfl rfl rfl
    (by decide) (by decide) (by decide) (by decide) (by decide)
    (by decide) (by decide) (by decide) (by decide) (by decide)
    (by decide)

end Bouncy
